import Mathlib

/-!
Shallow embedding of the Kamehameha gesture-detection core
(`KamehamehaDetector` in the repository's main source file) and proofs about
its state machine, pose scorers and direction estimators.

Conventions of the embedding:
* JS numbers are modelled as `ℚ`.  All concrete inputs used below are exact
  binary64 values, so `ℚ` arithmetic coincides with the source's arithmetic
  on them.
* `Math.sqrt`, `Math.atan2` and `Math.PI` are transcendental; the source only
  ever feeds their results into comparisons.  They are abstracted into a
  parameter structure `Prims`, so every theorem quantifying over `P : Prims`
  holds for any implementation of these primitives (in particular for the
  binary64 ones).  Concrete witnesses use `testPrims`, whose primitives are
  exact on the axis-aligned inputs they are applied to.
* A JS `TypeError` (dereferencing a missing hand/keypoint) is modelled as
  `Option.none` propagating out of the affected function.  All call sites in
  the source guard against it, and the corresponding `none` branches are
  unreachable there.
* `console.log` calls, the log-throttling fields (`previousScore`,
  `previousFiringScore`, `lastLoggedProgress`, `lastLoggedAngle`,
  `lastBeamAngle`), `debugMode` and the always-empty `gestureHistory` array
  have no effect on state or results and are omitted.
* `Date.now()` is modelled by the `now : ℚ` argument of a frame step (each
  `detectGesture` call reads the clock once per concern, within one tick).
-/

namespace Kamehameha

/-- Abstract numeric primitives of the JS runtime: `Math.sqrt`, `Math.atan2`
(first argument `y`, second `x`) and `Math.PI`. -/
structure Prims where
  sqrt : ℚ → ℚ
  atan2 : ℚ → ℚ → ℚ
  pi : ℚ

/-- A 2-D point or vector `{x, y}`. -/
structure Vec2 where
  x : ℚ
  y : ℚ
deriving DecidableEq, Repr

/-- A 3-D point `{x, y, z}` (used by `getConsistentKeypoint`). -/
structure Pt3 where
  x : ℚ
  y : ℚ
  z : ℚ
deriving DecidableEq, Repr

/-- A named hand landmark `{name, x, y, z?}`. -/
structure Keypoint where
  name : String
  x : ℚ
  y : ℚ
  z : ℚ := 0
deriving DecidableEq, Repr

/-- A detected hand: a 2-D keypoint list plus an optional 3-D keypoint list. -/
structure Hand where
  keypoints : List Keypoint
  keypoints3D : Option (List Keypoint) := none
deriving DecidableEq, Repr

/-- `hand.keypoints.find(kp => kp.name === n)`. -/
def findKp (h : Hand) (n : String) : Option Keypoint :=
  h.keypoints.find? (fun k => k.name == n)

/-- Lookup in the optional 3-D keypoint list. -/
def findKp3D (h : Hand) (n : String) : Option Keypoint :=
  match h.keypoints3D with
  | some kps => kps.find? (fun k => k.name == n)
  | none => none

/-- `Math.sqrt((a.x-b.x)^2 + (a.y-b.y)^2)` on two keypoints. -/
def kdist (P : Prims) (a b : Keypoint) : ℚ :=
  P.sqrt ((a.x - b.x) * (a.x - b.x) + (a.y - b.y) * (a.y - b.y))

/-- Distance from a 2-D point to a keypoint-sized point. -/
def vdist (P : Prims) (a : Vec2) (b : Vec2) : ℚ :=
  P.sqrt ((a.x - b.x) * (a.x - b.x) + (a.y - b.y) * (a.y - b.y))

/-- `screenToCanvas2D`: screen space (y down) to math space (y up). -/
def screenToCanvas2D (v : Keypoint) : Vec2 :=
  ⟨v.x, -v.y⟩

/-- `getConsistentKeypoint`: prefer the 3-D keypoint (world space), otherwise
the converted 2-D one with `z = 0`; `null` when neither list has the name. -/
def getConsistentKeypoint (hand : Hand) (keypointName : String) : Option Pt3 :=
  match findKp3D hand keypointName with
  | some kp3D => some ⟨kp3D.x, kp3D.y, kp3D.z⟩
  | none =>
    match findKp hand keypointName with
    | some kp2D => some ⟨(screenToCanvas2D kp2D).x, (screenToCanvas2D kp2D).y, 0⟩
    | none => none

/-- `identifyHands`: with exactly two hands both exposing a `wrist`, order
them by wrist x (3-D world x preferred when both hands carry 3-D lists and
3-D wrists are found); smaller x is left.  `none` models the `[null, null]`
result. -/
def identifyHands (hands : List Hand) : Option (Hand × Hand) :=
  match hands with
  | [hand1, hand2] =>
    match findKp hand1 "wrist", findKp hand2 "wrist" with
    | some wrist1, some wrist2 =>
      let xs : ℚ × ℚ :=
        match hand1.keypoints3D, hand2.keypoints3D with
        | some _, some _ =>
          match findKp3D hand1 "wrist", findKp3D hand2 "wrist" with
          | some w1, some w2 => (w1.x, w2.x)
          | _, _ => (wrist1.x, wrist2.x)
        | _, _ => (wrist1.x, wrist2.x)
      if xs.1 < xs.2 then some (hand1, hand2) else some (hand2, hand1)
    | _, _ => none
  | _ => none

/-- `calculateEnergySphereCenter`: midpoint of the two hands' (index, middle)
fingertip midpoints, pulled 30% toward the wrist midpoint; falls back to the
wrist midpoint when fingertips are missing.  `none` models the `TypeError`
raised when a wrist itself is missing (every caller guards against that). -/
def calculateEnergySphereCenter (leftHand rightHand : Hand) : Option Vec2 :=
  match findKp leftHand "wrist", findKp rightHand "wrist" with
  | some leftWrist, some rightWrist =>
    match findKp leftHand "index_finger_tip", findKp rightHand "index_finger_tip",
          findKp leftHand "middle_finger_tip", findKp rightHand "middle_finger_tip" with
    | some leftIndex, some rightIndex, some leftMiddle, some rightMiddle =>
      let leftFingerCenter : Vec2 := ⟨(leftIndex.x + leftMiddle.x) / 2, (leftIndex.y + leftMiddle.y) / 2⟩
      let rightFingerCenter : Vec2 := ⟨(rightIndex.x + rightMiddle.x) / 2, (rightIndex.y + rightMiddle.y) / 2⟩
      let sphereCenter : Vec2 :=
        ⟨(leftFingerCenter.x + rightFingerCenter.x) / 2, (leftFingerCenter.y + rightFingerCenter.y) / 2⟩
      let wristCenter : Vec2 := ⟨(leftWrist.x + rightWrist.x) / 2, (leftWrist.y + rightWrist.y) / 2⟩
      some ⟨sphereCenter.x + (wristCenter.x - sphereCenter.x) * (3 / 10),
            sphereCenter.y + (wristCenter.y - sphereCenter.y) * (3 / 10)⟩
    | _, _, _, _ =>
      some ⟨(leftWrist.x + rightWrist.x) / 2, (leftWrist.y + rightWrist.y) / 2⟩
  | _, _ => none

/-- Result of `calculateEnhancedFingerSpread` (the `fingerArch` diagnostic,
returned but never read by any caller, is omitted).  The missing-keypoint
branch returns zeros. -/
structure FingerSpread where
  totalSpread : ℚ
  intensity : ℚ
  avgExtension : ℚ
  maxExtension : ℚ
deriving DecidableEq, Repr

/-- `calculateEnhancedFingerSpread`: sum of adjacent fingertip distances and
a 0–1 intensity mixing normalized spread and wrist-to-fingertip extension. -/
def calculateEnhancedFingerSpread (P : Prims) (hand : Hand) : FingerSpread :=
  match findKp hand "thumb_tip", findKp hand "index_finger_tip",
        findKp hand "middle_finger_tip", findKp hand "ring_finger_tip",
        findKp hand "pinky_tip", findKp hand "wrist" with
  | some thumb, some index, some middle, some ringTip, some pinky, some wrist =>
    let thumbToIndex := kdist P thumb index
    let indexToMiddle := kdist P index middle
    let middleToRing := kdist P middle ringTip
    let ringToPinky := kdist P ringTip pinky
    let totalSpread := thumbToIndex + indexToMiddle + middleToRing + ringToPinky
    let fingerDistances : List ℚ :=
      [kdist P thumb wrist, kdist P index wrist, kdist P middle wrist,
       kdist P ringTip wrist, kdist P pinky wrist]
    let avgFingerExtension := fingerDistances.sum / (fingerDistances.length : ℚ)
    let maxFingerExtension := fingerDistances.foldl max 0
    let spreadIntensity := min (totalSpread / 150) 1
    let extensionIntensity := min (avgFingerExtension / 80) 1
    { totalSpread := totalSpread
      intensity := (spreadIntensity + extensionIntensity) / 2
      avgExtension := avgFingerExtension
      maxExtension := maxFingerExtension }
  | _, _, _, _, _, _ => ⟨0, 0, 0, 0⟩

/-- Result of `analyzeDragonBallZEnergyFunnel` (diagnostic strings besides
`quality` are omitted; only `isValid` drives control flow). -/
structure FunnelResult where
  isValid : Bool
  quality : String
deriving DecidableEq, Repr

/-- `analyzeDragonBallZEnergyFunnel`: fingertips must sit within 1.2× of the
wrist-to-center distance and finger directions must point within 45° of the
sphere center; quality graded by the mean convergence angle. -/
def analyzeDragonBallZEnergyFunnel (P : Prims) (leftHand rightHand : Hand)
    (sphereCenter : Vec2) : FunnelResult :=
  match findKp leftHand "wrist", findKp rightHand "wrist",
        findKp leftHand "index_finger_tip", findKp rightHand "index_finger_tip",
        findKp leftHand "middle_finger_tip", findKp rightHand "middle_finger_tip" with
  | some leftWrist, some rightWrist, some leftIndex, some rightIndex,
    some leftMiddle, some rightMiddle =>
    let leftIndexToSphere := vdist P ⟨leftIndex.x, leftIndex.y⟩ sphereCenter
    let leftMiddleToSphere := vdist P ⟨leftMiddle.x, leftMiddle.y⟩ sphereCenter
    let rightIndexToSphere := vdist P ⟨rightIndex.x, rightIndex.y⟩ sphereCenter
    let rightMiddleToSphere := vdist P ⟨rightMiddle.x, rightMiddle.y⟩ sphereCenter
    let leftWristToSphere := vdist P ⟨leftWrist.x, leftWrist.y⟩ sphereCenter
    let rightWristToSphere := vdist P ⟨rightWrist.x, rightWrist.y⟩ sphereCenter
    let leftFunnelValid :=
      leftIndexToSphere < leftWristToSphere * (6 / 5) ∧
      leftMiddleToSphere < leftWristToSphere * (6 / 5)
    let rightFunnelValid :=
      rightIndexToSphere < rightWristToSphere * (6 / 5) ∧
      rightMiddleToSphere < rightWristToSphere * (6 / 5)
    let leftFingerAngle := P.atan2 (leftIndex.y - leftWrist.y) (leftIndex.x - leftWrist.x)
    let rightFingerAngle := P.atan2 (rightIndex.y - rightWrist.y) (rightIndex.x - rightWrist.x)
    let leftSphereAngle := P.atan2 (sphereCenter.y - leftWrist.y) (sphereCenter.x - leftWrist.x)
    let rightSphereAngle := P.atan2 (sphereCenter.y - rightWrist.y) (sphereCenter.x - rightWrist.x)
    let leftConvergence := |leftFingerAngle - leftSphereAngle| * 180 / P.pi
    let rightConvergence := |rightFingerAngle - rightSphereAngle| * 180 / P.pi
    let convergenceValid := leftConvergence < 45 ∧ rightConvergence < 45
    let funnelStrength := leftFunnelValid ∧ rightFunnelValid ∧ convergenceValid
    if funnelStrength then
      let avgConvergence := (leftConvergence + rightConvergence) / 2
      if avgConvergence < 20 then ⟨true, "excellent"⟩
      else if avgConvergence < 35 then ⟨true, "good"⟩
      else ⟨true, "fair"⟩
    else ⟨false, "poor"⟩
  | _, _, _, _, _, _ => ⟨false, "poor"⟩

/-- Result of `analyzeChargingPose`: the 0–6 score together with the six
per-criterion verdicts (diagnostic strings and raw measurements omitted). -/
structure ChargingAnalysis where
  score : ℕ
  distanceValid : Bool
  vFormationValid : Bool
  palmsValid : Bool
  wristRotationValid : Bool
  fingersSpreadValid : Bool
  energyFunnelValid : Bool
deriving DecidableEq, Repr

/-- `analyzeChargingPose`: scores the six Dragon-Ball-Z charging criteria.
The function dereferences the wrist/thumb/index keypoints of both hands
without a guard (its only caller, `isInStartingPosition`, has already
checked them), so missing ones yield `none` (`TypeError`); the sphere-center
`none` branch is likewise unreachable because the wrists were just found. -/
def analyzeChargingPose (P : Prims) (leftHand rightHand : Hand) : Option ChargingAnalysis :=
  match findKp leftHand "wrist", findKp rightHand "wrist",
        findKp leftHand "thumb_tip", findKp rightHand "thumb_tip",
        findKp leftHand "index_finger_tip", findKp rightHand "index_finger_tip" with
  | some leftWrist, some rightWrist, some leftThumb, some rightThumb,
    some leftIndex, some rightIndex =>
    match calculateEnergySphereCenter leftHand rightHand with
    | none => none
    | some sphereCenter =>
      -- 1. wrist separation 30–120 px
      let wristDistance := kdist P leftWrist rightWrist
      let distanceValid := 30 ≤ wristDistance ∧ wristDistance ≤ 120
      -- 2. V-formation between the wrist-to-center vectors, 120°–180°
      let leftWristToCenter : Vec2 := ⟨sphereCenter.x - leftWrist.x, sphereCenter.y - leftWrist.y⟩
      let rightWristToCenter : Vec2 := ⟨sphereCenter.x - rightWrist.x, sphereCenter.y - rightWrist.y⟩
      let leftWristAngle := P.atan2 leftWristToCenter.y leftWristToCenter.x
      let rightWristAngle := P.atan2 rightWristToCenter.y rightWristToCenter.x
      let vFormationAngle := |leftWristAngle - rightWristAngle| * 180 / P.pi
      let vFormationValid := 120 ≤ vFormationAngle ∧ vFormationAngle ≤ 180
      -- 3. palms (wrist→index vectors) within 45° of the sphere direction
      let leftPalmAngle := P.atan2 (leftIndex.y - leftWrist.y) (leftIndex.x - leftWrist.x)
      let rightPalmAngle := P.atan2 (rightIndex.y - rightWrist.y) (rightIndex.x - rightWrist.x)
      let leftPalmAlignment := |leftPalmAngle - leftWristAngle| * 180 / P.pi
      let rightPalmAlignment := |rightPalmAngle - rightWristAngle| * 180 / P.pi
      let palmsValid := leftPalmAlignment < 45 ∧ rightPalmAlignment < 45
      -- 4. wrist rotation via thumb angle: left 90°–150°, right 30°–90°
      let leftRotationDeg := P.atan2 (leftThumb.y - leftWrist.y) (leftThumb.x - leftWrist.x) * 180 / P.pi
      let rightRotationDeg := P.atan2 (rightThumb.y - rightWrist.y) (rightThumb.x - rightWrist.x) * 180 / P.pi
      let wristRotationValid :=
        (90 ≤ leftRotationDeg ∧ leftRotationDeg ≤ 150) ∧
        (30 ≤ rightRotationDeg ∧ rightRotationDeg ≤ 90)
      -- 5. finger spread: avg total spread > 100 px and avg intensity > 0.7
      let leftFingerSpread := calculateEnhancedFingerSpread P leftHand
      let rightFingerSpread := calculateEnhancedFingerSpread P rightHand
      let avgFingerSpread := (leftFingerSpread.totalSpread + rightFingerSpread.totalSpread) / 2
      let fingerIntensity := (leftFingerSpread.intensity + rightFingerSpread.intensity) / 2
      let fingersSpreadValid := avgFingerSpread > 100 ∧ fingerIntensity > 7 / 10
      -- 6. energy funnel
      let funnelAlignment := analyzeDragonBallZEnergyFunnel P leftHand rightHand sphereCenter
      let energyFunnelValid := funnelAlignment.isValid = true
      some
        { score :=
            (if distanceValid then 1 else 0) + (if vFormationValid then 1 else 0) +
            (if palmsValid then 1 else 0) + (if wristRotationValid then 1 else 0) +
            (if fingersSpreadValid then 1 else 0) + (if energyFunnelValid then 1 else 0)
          distanceValid := decide distanceValid
          vFormationValid := decide vFormationValid
          palmsValid := decide palmsValid
          wristRotationValid := decide wristRotationValid
          fingersSpreadValid := decide fingersSpreadValid
          energyFunnelValid := decide energyFunnelValid }
  | _, _, _, _, _, _ => none

/-- `isInStartingPosition`: exactly two identified hands exposing wrists,
thumb tips and index tips, and a charging score of at least 2.  The beam
direction computed on a valid pose is discarded by the source ("don't lock
it in"), so it does not appear here. -/
def isInStartingPosition (P : Prims) (hands : List Hand) : Bool :=
  if hands.length ≠ 2 then false
  else
    match identifyHands hands with
    | none => false
    | some (leftHand, rightHand) =>
      match findKp leftHand "wrist", findKp rightHand "wrist",
            findKp leftHand "thumb_tip", findKp rightHand "thumb_tip",
            findKp leftHand "index_finger_tip", findKp rightHand "index_finger_tip" with
      | some _, some _, some _, some _, some _, some _ =>
        match analyzeChargingPose P leftHand rightHand with
        | some chargingAnalysis => decide (2 ≤ chargingAnalysis.score)
        | none => false
      | _, _, _, _, _, _ => false

/-- The four non-thumb finger tip names iterated by `checkFingersCurved`. -/
def fingerTipNames : List String :=
  ["index_finger_tip", "middle_finger_tip", "ring_finger_tip", "pinky_tip"]

/-- Accumulated (sum of tip-to-mcp distances, number of fingers with both
keypoints) for one hand, as accumulated by `checkFingersCurved`. -/
def curvatureSum (P : Prims) (hand : Hand) : ℚ × ℕ :=
  fingerTipNames.foldl
    (fun acc fingerName =>
      match findKp hand fingerName, findKp hand (fingerName.replace "_tip" "_mcp") with
      | some finger, some fingerMcp => (acc.1 + kdist P finger fingerMcp, acc.2 + 1)
      | _, _ => acc)
    (0, 0)

/-- `checkFingersCurved` (`isValid` field): per-hand average tip-to-mcp
distance within ±20 px of the expected 40 px, for both hands.  The source
returns a record with diagnostics; only `isValid` is ever read. -/
def checkFingersCurved (P : Prims) (leftHand rightHand : Hand) : Bool :=
  match findKp leftHand "wrist", findKp rightHand "wrist" with
  | some _, some _ =>
    let l := curvatureSum P leftHand
    let r := curvatureSum P rightHand
    if l.2 = 0 ∨ r.2 = 0 then false
    else
      let avgLeftCurvature := l.1 / (l.2 : ℚ)
      let avgRightCurvature := r.1 / (r.2 : ℚ)
      decide (|avgLeftCurvature - 40| < 20 ∧ |avgRightCurvature - 40| < 20)
  | _, _ => false

/-- `checkHandsAligned` (`isValid` field): vertical wrist offset below 30 px
and wrist distance strictly between 80 and 200 px. -/
def checkHandsAligned (P : Prims) (leftWrist rightWrist : Keypoint) : Bool :=
  let verticalAlignment := |leftWrist.y - rightWrist.y|
  let handDistance := kdist P leftWrist rightWrist
  decide (verticalAlignment < 30 ∧ handDistance > 80 ∧ handDistance < 200)

/-- `checkWristsRotated` (`isValid` field): left thumb angle in (−45°, 45°),
right thumb angle beyond ±135°. -/
def checkWristsRotated (P : Prims) (leftHand rightHand : Hand) : Bool :=
  match findKp leftHand "wrist", findKp rightHand "wrist",
        findKp leftHand "thumb_tip", findKp rightHand "thumb_tip" with
  | some leftWrist, some rightWrist, some leftThumb, some rightThumb =>
    let leftRotationDeg := P.atan2 (leftThumb.y - leftWrist.y) (leftThumb.x - leftWrist.x) * 180 / P.pi
    let rightRotationDeg := P.atan2 (rightThumb.y - rightWrist.y) (rightThumb.x - rightWrist.x) * 180 / P.pi
    decide ((leftRotationDeg > -45 ∧ leftRotationDeg < 45) ∧
            (rightRotationDeg > 135 ∨ rightRotationDeg < -135))
  | _, _, _, _ => false

/-- `checkEnergySphereFormation` (`isValid` field): the four index/middle
fingertip distances to the sphere center all within 20 px of their mean,
with that mean strictly between 30 and 100 px. -/
def checkEnergySphereFormation (P : Prims) (leftHand rightHand : Hand) : Bool :=
  match findKp leftHand "wrist", findKp rightHand "wrist",
        findKp leftHand "index_finger_tip", findKp rightHand "index_finger_tip",
        findKp leftHand "middle_finger_tip", findKp rightHand "middle_finger_tip" with
  | some _, some _, some leftIndex, some rightIndex, some leftMiddle, some rightMiddle =>
    match calculateEnergySphereCenter leftHand rightHand with
    | none => false  -- unreachable: the wrists were just found
    | some sphereCenter =>
      let leftIndexDist := vdist P ⟨leftIndex.x, leftIndex.y⟩ sphereCenter
      let rightIndexDist := vdist P ⟨rightIndex.x, rightIndex.y⟩ sphereCenter
      let leftMiddleDist := vdist P ⟨leftMiddle.x, leftMiddle.y⟩ sphereCenter
      let rightMiddleDist := vdist P ⟨rightMiddle.x, rightMiddle.y⟩ sphereCenter
      let avgDistance := (leftIndexDist + rightIndexDist + leftMiddleDist + rightMiddleDist) / 4
      let maxVariance :=
        max (max |leftIndexDist - avgDistance| |rightIndexDist - avgDistance|)
            (max |leftMiddleDist - avgDistance| |rightMiddleDist - avgDistance|)
      decide (maxVariance < 20 ∧ avgDistance > 30 ∧ avgDistance < 100)
  | _, _, _, _, _, _ => false

/-- The firing-pose criteria count of `isInFiringPosition` (its `poseScore`
accumulator): the four evaluated criteria, in source order. -/
def firingPoseScore (P : Prims) (leftHand rightHand : Hand)
    (leftWrist rightWrist : Keypoint) : ℕ :=
  (if checkFingersCurved P leftHand rightHand then 1 else 0) +
  (if checkHandsAligned P leftWrist rightWrist then 1 else 0) +
  (if checkWristsRotated P leftHand rightHand then 1 else 0) +
  (if checkEnergySphereFormation P leftHand rightHand then 1 else 0)

/-- `isInFiringPosition`: exactly two identified hands exposing wrist,
thumb, index and middle tips, and at least 2 of the 4 firing criteria
satisfied (the source comments still speak of a removed 5th criterion). -/
def isInFiringPosition (P : Prims) (hands : List Hand) : Bool :=
  if hands.length ≠ 2 then false
  else
    match identifyHands hands with
    | none => false
    | some (leftHand, rightHand) =>
      match findKp leftHand "wrist", findKp rightHand "wrist",
            findKp leftHand "thumb_tip", findKp rightHand "thumb_tip",
            findKp leftHand "index_finger_tip", findKp rightHand "index_finger_tip",
            findKp leftHand "middle_finger_tip", findKp rightHand "middle_finger_tip" with
      | some leftWrist, some rightWrist, some _, some _, some _, some _, some _, some _ =>
        decide (2 ≤ firingPoseScore P leftHand rightHand leftWrist rightWrist)
      | _, _, _, _, _, _, _, _ => false

/-- A beam-direction record.  JS returns ad-hoc objects whose field sets
differ per method; optional fields cover the union (`error` marks the two
degenerate branches of `calculateBeamDirectionFromWrists`). -/
structure BeamDirection where
  angle : ℚ
  vector : Vec2
  origin : Option Vec2 := none
  endpoint : Option Vec2 := none
  method : String := ""
  error : Option String := none
deriving DecidableEq, Repr

/-- The constructor's default beam (flat horizontal right); the unread 3-D
fields (`vector3D`, `origin3D`, `perspective`) are omitted. -/
def defaultBeamDirection : BeamDirection :=
  { angle := 0, vector := ⟨1, 0⟩ }

/-- `calculateFingerConvergenceDirection`: average wrist→middle (and, when
present, wrist→index) vectors of both hands in the consistent coordinate
system, normalized; `none` when keypoints are missing or the combined
magnitude is below 10; flipped when pointing more than 90° from forward. -/
def calculateFingerConvergenceDirection (P : Prims) (leftHand rightHand : Hand) : Option Vec2 :=
  match getConsistentKeypoint leftHand "wrist", getConsistentKeypoint rightHand "wrist",
        getConsistentKeypoint leftHand "middle_finger_tip",
        getConsistentKeypoint rightHand "middle_finger_tip" with
  | some leftWrist, some rightWrist, some leftMiddle, some rightMiddle =>
    let leftFingerDir : Vec2 := ⟨leftMiddle.x - leftWrist.x, leftMiddle.y - leftWrist.y⟩
    let rightFingerDir : Vec2 := ⟨rightMiddle.x - rightWrist.x, rightMiddle.y - rightWrist.y⟩
    let dirs : Vec2 × Vec2 :=
      match getConsistentKeypoint leftHand "index_finger_tip",
            getConsistentKeypoint rightHand "index_finger_tip" with
      | some leftIndex, some rightIndex =>
        (⟨(leftFingerDir.x + (leftIndex.x - leftWrist.x)) / 2,
          (leftFingerDir.y + (leftIndex.y - leftWrist.y)) / 2⟩,
         ⟨(rightFingerDir.x + (rightIndex.x - rightWrist.x)) / 2,
          (rightFingerDir.y + (rightIndex.y - rightWrist.y)) / 2⟩)
      | _, _ => (leftFingerDir, rightFingerDir)
    let beamDirection : Vec2 := ⟨(dirs.1.x + dirs.2.x) / 2, (dirs.1.y + dirs.2.y) / 2⟩
    let magnitude := P.sqrt (beamDirection.x * beamDirection.x + beamDirection.y * beamDirection.y)
    if magnitude < 10 then none
    else
      let normalizedDirection : Vec2 := ⟨beamDirection.x / magnitude, beamDirection.y / magnitude⟩
      let directionAngle := P.atan2 normalizedDirection.y normalizedDirection.x
      if |directionAngle| > P.pi / 2 then
        some ⟨-normalizedDirection.x, -normalizedDirection.y⟩
      else some normalizedDirection
  | _, _, _, _ => none

/-- `calculatePalmFacingDirection`: negated average wrist→(middle+index)/2
vector, normalized; `none` on missing keypoints or zero magnitude; flipped
to a non-negative x component. -/
def calculatePalmFacingDirection (P : Prims) (leftHand rightHand : Hand) : Option Vec2 :=
  match findKp leftHand "wrist", findKp rightHand "wrist",
        findKp leftHand "middle_finger_tip", findKp rightHand "middle_finger_tip" with
  | some leftWrist, some rightWrist, some leftMiddle, some rightMiddle =>
    let palmDirs : Vec2 × Vec2 :=
      match findKp leftHand "index_finger_tip", findKp rightHand "index_finger_tip" with
      | some leftIndex, some rightIndex =>
        (⟨(leftMiddle.x + leftIndex.x) / 2 - leftWrist.x,
          (leftMiddle.y + leftIndex.y) / 2 - leftWrist.y⟩,
         ⟨(rightMiddle.x + rightIndex.x) / 2 - rightWrist.x,
          (rightMiddle.y + rightIndex.y) / 2 - rightWrist.y⟩)
      | _, _ =>
        (⟨leftMiddle.x - leftWrist.x, leftMiddle.y - leftWrist.y⟩,
         ⟨rightMiddle.x - rightWrist.x, rightMiddle.y - rightWrist.y⟩)
    let avgPalmDir : Vec2 :=
      ⟨-((palmDirs.1.x + palmDirs.2.x) / 2), -((palmDirs.1.y + palmDirs.2.y) / 2)⟩
    let magnitude := P.sqrt (avgPalmDir.x * avgPalmDir.x + avgPalmDir.y * avgPalmDir.y)
    if magnitude = 0 then none
    else
      let normalizedDirection : Vec2 := ⟨avgPalmDir.x / magnitude, avgPalmDir.y / magnitude⟩
      if normalizedDirection.x < 0 then
        some ⟨-normalizedDirection.x, -normalizedDirection.y⟩
      else some normalizedDirection
  | _, _, _, _ => none

/-- `calculateBeamDirectionFromWrists`: the layered lock-in estimator.
Finger convergence first, then palm facing, then the perpendicular-wrist
fallback; origin is the energy-sphere center when both hands are supplied
(always `some` at the call sites, where wrists exist), else the wrist
midpoint. -/
def calculateBeamDirectionFromWrists (P : Prims) (leftWrist rightWrist : Option Keypoint)
    (leftHand rightHand : Option Hand) : BeamDirection :=
  match leftWrist, rightWrist with
  | some lw, some rw =>
    let wristAxis : Vec2 := ⟨rw.x - lw.x, rw.y - lw.y⟩
    let wristDistance := P.sqrt (wristAxis.x * wristAxis.x + wristAxis.y * wristAxis.y)
    if wristDistance < 10 then
      { angle := 0, vector := ⟨1, 0⟩,
        origin := some ⟨(lw.x + rw.x) / 2, (lw.y + rw.y) / 2⟩,
        error := some "Wrists too close together" }
    else
      let fromHands : Option (Vec2 × String) :=
        match leftHand, rightHand with
        | some lh, some rh =>
          match calculateFingerConvergenceDirection P lh rh with
          | some fingerDirection => some (fingerDirection, "finger_convergence")
          | none =>
            match calculatePalmFacingDirection P lh rh with
            | some palmDirection => some (palmDirection, "palm_facing")
            | none => none
        | _, _ => none
      let chosen : Vec2 × String :=
        match fromHands with
        | some r => r
        | none =>
          let wristAngle := P.atan2 wristAxis.y wristAxis.x
          let isClockwise := |wristAngle| < P.pi / 2
          (⟨if isClockwise then -wristAxis.y else wristAxis.y,
            if isClockwise then wristAxis.x else -wristAxis.x⟩, "perpendicular_wrist")
      let magnitude := P.sqrt (chosen.1.x * chosen.1.x + chosen.1.y * chosen.1.y)
      let normalizedBeamDirection : Vec2 :=
        if magnitude > 0 then ⟨chosen.1.x / magnitude, chosen.1.y / magnitude⟩ else ⟨1, 0⟩
      let beamOrigin : Option Vec2 :=
        match leftHand, rightHand with
        | some lh, some rh => calculateEnergySphereCenter lh rh
        | _, _ => some ⟨(lw.x + rw.x) / 2, (lw.y + rw.y) / 2⟩
      { angle := P.atan2 normalizedBeamDirection.y normalizedBeamDirection.x
        vector := normalizedBeamDirection
        origin := beamOrigin
        method := chosen.2 }
  | _, _ =>
    { angle := 0, vector := ⟨1, 0⟩, origin := some ⟨0, 0⟩,
      error := some "Missing wrist keypoints" }

/-- `calculateThrustDirection`: the continuous per-frame estimate.  Origin is
the mirrored wrist midpoint, target the mirrored middle-fingertip midpoint
(the source hardcodes `flipX = true` and `videoWidth = 640`); `{0,-1}` when
the two coincide.  `none` models the `TypeError` hit when `identifyHands`
yields nulls (two hands, missing wrist) — all call sites are guarded. -/
def calculateThrustDirection (P : Prims) (hands : List Hand) : Option BeamDirection :=
  if hands.length ≠ 2 then
    some { angle := 0, vector := ⟨1, 0⟩, origin := some ⟨0, 0⟩,
           endpoint := some ⟨1000, 0⟩, method := "default" }
  else
    match identifyHands hands with
    | none => none
    | some (leftHand, rightHand) =>
      match findKp leftHand "wrist", findKp rightHand "wrist",
            findKp leftHand "middle_finger_tip", findKp rightHand "middle_finger_tip" with
      | some leftWrist, some rightWrist, some leftMiddle, some rightMiddle =>
        let mirrorX : ℚ → ℚ := fun x => 640 - x
        let origin : Vec2 := ⟨(mirrorX leftWrist.x + mirrorX rightWrist.x) / 2,
                              (leftWrist.y + rightWrist.y) / 2⟩
        let target : Vec2 := ⟨(mirrorX leftMiddle.x + mirrorX rightMiddle.x) / 2,
                              (leftMiddle.y + rightMiddle.y) / 2⟩
        let vec : Vec2 := ⟨target.x - origin.x, target.y - origin.y⟩
        let norm := P.sqrt (vec.x * vec.x + vec.y * vec.y)
        let beamVec : Vec2 := if norm = 0 then ⟨0, -1⟩ else ⟨vec.x / norm, vec.y / norm⟩
        some { angle := P.atan2 beamVec.y beamVec.x
               vector := beamVec
               origin := some origin
               endpoint := some ⟨origin.x + beamVec.x * 1000, origin.y + beamVec.y * 1000⟩
               method := "origin-to-midpoint" }
      | _, _, _, _ =>
        some { angle := 0, vector := ⟨1, 0⟩, origin := some ⟨0, 0⟩,
               endpoint := some ⟨1000, 0⟩, method := "default" }

/-- The four gesture phases (`this.gestureState` strings). -/
inductive GesturePhase where
  | idle
  | positioning
  | charging
  | firing
deriving DecidableEq, Repr

/-- One entry of `handPositionHistory` (`timestamp` is the frame clock). -/
structure HistEntry where
  x : ℚ
  y : ℚ
  timestamp : ℚ
  leftWrist : Vec2
  rightWrist : Vec2
  distance : ℚ
deriving DecidableEq, Repr

/-- The detector's mutable fields (constructor of `KamehamehaDetector`).
Logging-throttle fields, `debugMode`, the constant thresholds, the callback
and the always-empty `gestureHistory` are omitted (they never influence
state or results). -/
structure DetectorState where
  gestureState : GesturePhase
  stateStartTime : ℚ
  chargingDuration : ℚ
  positioningFrameCount : ℕ
  firingFrameCount : ℕ
  firingStartTime : ℚ
  allowedFiringDuration : ℚ
  firingStabilityCounter : ℕ
  beamDirection : BeamDirection
  handPositionHistory : List HistEntry
  chargingPosition : Option HistEntry
  currentHands : Option (List Hand)
deriving DecidableEq, Repr

/-- `this.minimumChargingTime` (ms). -/
def minimumChargingTime : ℚ := 5000

/-- `this.maxChargingTime` (ms). -/
def maxChargingTime : ℚ := 20000

/-- `this.maxFiringDuration` (ms). -/
def maxFiringDuration : ℚ := 15000

/-- `this.firingStabilityThreshold` (consecutive invalid frames). -/
def firingStabilityThreshold : ℕ := 5

/-- `this.maxHistoryLength`. -/
def maxHistoryLength : ℕ := 10

/-- The construction-time state of the detector. -/
def initState : DetectorState :=
  { gestureState := .idle
    stateStartTime := 0
    chargingDuration := 0
    positioningFrameCount := 0
    firingFrameCount := 0
    firingStartTime := 0
    allowedFiringDuration := 0
    firingStabilityCounter := 0
    beamDirection := defaultBeamDirection
    handPositionHistory := []
    chargingPosition := none
    currentHands := none }

/-- `reset()`: the fields it actually assigns.  Note it does not touch
`beamDirection`, `handPositionHistory` or `chargingPosition`. -/
def reset (st : DetectorState) : DetectorState :=
  { st with
    gestureState := .idle
    stateStartTime := 0
    chargingDuration := 0
    positioningFrameCount := 0
    firingFrameCount := 0
    firingStartTime := 0
    allowedFiringDuration := 0
    firingStabilityCounter := 0
    currentHands := none }

/-- The history list produced by `updateHandPositionHistory`: push the
wrist-midpoint sample, trim to the last `maxHistoryLength` entries, leave
the list alone on any guard failure (early `return`). -/
def historyAfter (P : Prims) (hist : List HistEntry) (hands : List Hand) (now : ℚ) :
    List HistEntry :=
  if hands.length ≠ 2 then hist
  else
    match identifyHands hands with
    | none => hist
    | some (leftHand, rightHand) =>
      match findKp leftHand "wrist", findKp rightHand "wrist" with
      | some leftWrist, some rightWrist =>
        let entry : HistEntry :=
          { x := (leftWrist.x + rightWrist.x) / 2
            y := (leftWrist.y + rightWrist.y) / 2
            timestamp := now
            leftWrist := ⟨leftWrist.x, leftWrist.y⟩
            rightWrist := ⟨rightWrist.x, rightWrist.y⟩
            distance := kdist P leftWrist rightWrist }
        let hist := hist ++ [entry]
        if maxHistoryLength < hist.length then hist.drop 1 else hist
      | _, _ => hist

/-- `updateHandPositionHistory`: mutates only `handPositionHistory`. -/
def updateHandPositionHistory (P : Prims) (st : DetectorState) (hands : List Hand)
    (now : ℚ) : DetectorState :=
  { st with handPositionHistory := historyAfter P st.handPositionHistory hands now }

/-- The per-frame output record (`detectGesture`'s return value, also built
by `getGestureData`). -/
structure GestureOutput where
  state : GesturePhase
  chargingDuration : ℚ
  chargingProgress : ℚ
  firingFrameCount : ℕ
  firingDirection : BeamDirection
  energySphereCenter : Option Vec2
  allowedFiringDuration : ℚ
  currentFiringDuration : ℚ
  firingProgress : ℚ
deriving DecidableEq, Repr

/-- The `energySphereCenter` output field: populated only with two hands in
the `charging` phase.  Outer `none` models the unreachable `TypeError`
(identified hands always expose wrists); inner `Option` is the JS `null`. -/
def energyCenterOf (phase : GesturePhase) (hands : Option (List Hand)) : Option (Option Vec2) :=
  match hands with
  | some hs =>
    if hs.length = 2 ∧ phase = .charging then
      match identifyHands hs with
      | some (leftHand, rightHand) => (calculateEnergySphereCenter leftHand rightHand).map some
      | none => some none
    else some none
  | none => some none

/-- `getGestureData` (also the record literal at the end of `detectGesture`,
which is textually identical). -/
def getGestureData (st : DetectorState) (now : ℚ) : Option GestureOutput :=
  (energyCenterOf st.gestureState st.currentHands).map fun center =>
    { state := st.gestureState
      chargingDuration := st.chargingDuration
      chargingProgress := min (st.chargingDuration / maxChargingTime) 1
      firingFrameCount := st.firingFrameCount
      firingDirection := st.beamDirection
      energySphereCenter := center
      allowedFiringDuration := st.allowedFiringDuration
      currentFiringDuration := if st.gestureState = .firing then now - st.firingStartTime else 0
      firingProgress :=
        if st.allowedFiringDuration > 0 ∧ st.gestureState = .firing then
          min ((now - st.firingStartTime) / st.allowedFiringDuration) 1
        else 0 }

/-- The no-hands branch of `detectGesture`: only when the phase is not
already `idle` does it reset the phase and the four counters
(`positioningFrameCount`, `firingFrameCount`, `firingStabilityCounter`,
`chargingDuration`); the other fields are left as they are. -/
def noHandsReset (st : DetectorState) (now : ℚ) : Option (DetectorState × GestureOutput) :=
  let st' :=
    if st.gestureState ≠ .idle then
      { st with
        gestureState := .idle
        positioningFrameCount := 0
        firingFrameCount := 0
        firingStabilityCounter := 0
        chargingDuration := 0 }
    else st
  (getGestureData st' now).map fun out => (st', out)

/-- The `idle` arm of the `detectGesture` switch. -/
def idleStep (P : Prims) (st : DetectorState) (hands : List Hand) (now : ℚ) : DetectorState :=
  if isInStartingPosition P hands then
    { st with gestureState := .positioning, stateStartTime := now, positioningFrameCount := 1 }
  else st

/-- The `positioning` arm: 15 consecutive valid frames advance to
`charging` (snapshotting the latest history entry), an invalid frame drops
back to `idle`. -/
def positioningStep (P : Prims) (st : DetectorState) (hands : List Hand) (now : ℚ) : DetectorState :=
  if isInStartingPosition P hands then
    if 15 ≤ st.positioningFrameCount + 1 then
      { st with
        positioningFrameCount := st.positioningFrameCount + 1
        gestureState := .charging
        stateStartTime := now
        chargingDuration := 0
        chargingPosition :=
          match st.handPositionHistory.getLast? with
          | some entry => some entry
          | none => st.chargingPosition }
    else { st with positioningFrameCount := st.positioningFrameCount + 1 }
  else { st with gestureState := .idle, positioningFrameCount := 0 }

/-- The `charging` arm: a valid charging pose updates `chargingDuration`
(and aborts at 20 s); otherwise a valid firing pose after at least 5 s of
charge locks the firing budget and enters `firing` with the thrust-direction
beam; anything else drops to `idle`. -/
def chargingStep (P : Prims) (st : DetectorState) (hands : List Hand) (now : ℚ) :
    Option DetectorState :=
  if isInStartingPosition P hands then
    if maxChargingTime ≤ now - st.stateStartTime then
      some { st with chargingDuration := now - st.stateStartTime, gestureState := .idle }
    else some { st with chargingDuration := now - st.stateStartTime }
  else if isInFiringPosition P hands ∧ minimumChargingTime ≤ st.chargingDuration then
    match calculateThrustDirection P hands with
    | some newDirection =>
      some { st with
             allowedFiringDuration :=
               max 1875 (min (st.chargingDuration / maxChargingTime) 1 * maxFiringDuration)
             firingStartTime := now
             gestureState := .firing
             stateStartTime := now
             firingFrameCount := 1
             firingStabilityCounter := 0
             beamDirection := newDirection }
    | none => none
  else some { st with gestureState := .idle }

/-- The `firing` arm: a valid pose clears the invalid streak, bumps the
frame count, refreshes the beam and exits at the duration or 120-frame cap;
an invalid pose bumps the streak and exits once it reaches the threshold. -/
def firingStep (P : Prims) (st : DetectorState) (hands : List Hand) (now : ℚ) :
    Option DetectorState :=
  if isInFiringPosition P hands then
    match calculateThrustDirection P hands with
    | some newDirection =>
      if st.allowedFiringDuration ≤ now - st.firingStartTime then
        some { st with
               firingStabilityCounter := 0
               firingFrameCount := st.firingFrameCount + 1
               beamDirection := newDirection
               gestureState := .idle }
      else if 120 ≤ st.firingFrameCount + 1 then
        some { st with
               firingStabilityCounter := 0
               firingFrameCount := st.firingFrameCount + 1
               beamDirection := newDirection
               gestureState := .idle }
      else
        some { st with
               firingStabilityCounter := 0
               firingFrameCount := st.firingFrameCount + 1
               beamDirection := newDirection }
    | none => none
  else
    if firingStabilityThreshold ≤ st.firingStabilityCounter + 1 then
      some { st with
             firingStabilityCounter := st.firingStabilityCounter + 1
             firingFrameCount := st.firingFrameCount + 1
             gestureState := .idle }
    else
      some { st with
             firingStabilityCounter := st.firingStabilityCounter + 1
             firingFrameCount := st.firingFrameCount + 1 }

/-- The switch over the current phase. -/
def switchStep (P : Prims) (st : DetectorState) (hands : List Hand) (now : ℚ) :
    Option DetectorState :=
  match st.gestureState with
  | .idle => some (idleStep P st hands now)
  | .positioning => some (positioningStep P st hands now)
  | .charging => chargingStep P st hands now
  | .firing => firingStep P st hands now

/-- `detectGesture(hands)`, the per-frame entry point (`processFrame`).
`hands = none` models a missing array, `now` the frame clock.  The observer
callback receives a snapshot and cannot alter the state; it is not
modelled.  `none` models an uncaught `TypeError` (never reached from states
whose guards have validated the hands). -/
def detectGesture (P : Prims) (st0 : DetectorState) (hands : Option (List Hand)) (now : ℚ) :
    Option (DetectorState × GestureOutput) :=
  let st1 := { st0 with currentHands := hands }
  match hands with
  | none => noHandsReset { st1 with currentHands := none } now
  | some hs =>
    if hs.length = 0 then noHandsReset { st1 with currentHands := none } now
    else
      let st2 := updateHandPositionHistory P st1 hs now
      match switchStep P st2 hs now with
      | some stF => (getGestureData stF now).map fun out => (stF, out)
      | none => none

/-- A rational approximation of `Math.PI` (only its positivity and exact
cancellation in `angle * 180 / pi` matter for the concrete inputs below). -/
def piQ : ℚ := 314159 / 100000

/-- Digit-by-digit floor square root (fuel = remaining bits of the root). -/
def sqrtBits (n : Nat) : Nat → Nat → Nat
  | 0, acc => acc
  | fuel + 1, acc =>
    let cand := acc + 2 ^ fuel
    if cand * cand ≤ n then sqrtBits n fuel cand else sqrtBits n fuel acc

/-- Floor square root for roots below `2^17` (ample for screen geometry). -/
def natSqrtFloor (n : Nat) : Nat := sqrtBits n 17 0

/-- Floor square root on `ℚ`, exact on perfect squares of naturals — every
distance appearing in the concrete inputs below is one. -/
def ratSqrt (q : ℚ) : ℚ :=
  (natSqrtFloor q.num.toNat : ℚ) / (natSqrtFloor q.den : ℚ)

/-- Octant-resolution `atan2`: agrees with the real `Math.atan2` (up to the
rational `piQ`) on axis-aligned and exact-diagonal vectors, which are the
only vectors the concrete inputs below produce. -/
def qatan2 (y x : ℚ) : ℚ :=
  if 0 < x ∧ y = 0 then 0
  else if 0 < x ∧ 0 < y then piQ / 4
  else if x = 0 ∧ 0 < y then piQ / 2
  else if x < 0 ∧ 0 < y then 3 * piQ / 4
  else if x < 0 ∧ y = 0 then piQ
  else if x < 0 ∧ y < 0 then -(3 * piQ / 4)
  else if x = 0 ∧ y < 0 then -(piQ / 2)
  else if 0 < x ∧ y < 0 then -(piQ / 4)
  else 0

/-- The primitive instance used by all concrete witnesses. -/
def testPrims : Prims :=
  { sqrt := ratSqrt, atan2 := qatan2, pi := piQ }

/-- Shorthand for a 2-D keypoint. -/
def kp (n : String) (x y : ℚ) : Keypoint :=
  { name := n, x := x, y := y }

/-- Left hand of the concrete firing-pose frame: wrist (200,300), thumb
straight down-screen of it, index tip pointing away from the sphere, index
and middle tips on the wrist line with mcp joints 40 px below. -/
def fireL : Hand :=
  { keypoints :=
      [kp "wrist" 200 300, kp "thumb_tip" 200 260,
       kp "index_finger_tip" 160 300, kp "index_finger_mcp" 160 340,
       kp "middle_finger_tip" 260 300, kp "middle_finger_mcp" 260 340] }

/-- Right hand of the concrete firing-pose frame (mirror image of `fireL`
about x = 270). -/
def fireR : Hand :=
  { keypoints :=
      [kp "wrist" 340 300, kp "thumb_tip" 340 260,
       kp "index_finger_tip" 380 300, kp "index_finger_mcp" 380 340,
       kp "middle_finger_tip" 280 300, kp "middle_finger_mcp" 280 340] }

/-- A frame whose pose is firing-valid (criteria: fingers curved and hands
aligned) but charging-invalid (only the V-formation criterion holds). -/
def fireHands : List Hand := [fireL, fireR]

/-- Two bare wrists: hands are identified, but both pose predicates fail on
the missing thumb/index/middle keypoints. -/
def dullL : Hand := { keypoints := [kp "wrist" 100 100] }

/-- See `dullL`. -/
def dullR : Hand := { keypoints := [kp "wrist" 300 100] }

/-- A two-hand frame that is neither charging- nor firing-valid. -/
def dullHands : List Hand := [dullL, dullR]

/-- A fallback pair for reading off `Option` results of `detectGesture` in
closed witness statements. -/
def dummyResult : DetectorState × GestureOutput :=
  (initState,
   { state := .idle, chargingDuration := 0, chargingProgress := 0, firingFrameCount := 0,
     firingDirection := defaultBeamDirection, energySphereCenter := none,
     allowedFiringDuration := 0, currentFiringDuration := 0, firingProgress := 0 })

/-- A detector mid-charge: 5000 ms of charge accumulated. -/
def stCharging : DetectorState :=
  { initState with gestureState := .charging, stateStartTime := 100000, chargingDuration := 5000 }

/-- The frame that fires the kamehameha: `stCharging` meets the firing pose. -/
def chargeFireRes : DetectorState × GestureOutput :=
  (detectGesture testPrims stCharging (some fireHands) 107000).getD dummyResult

/-- A detector mid-firing episode: budget 3750 ms, one frame in, clean
invalid streak. -/
def stFiring : DetectorState :=
  { initState with
    gestureState := .firing
    stateStartTime := 107000
    firingStartTime := 107000
    allowedFiringDuration := 3750
    firingFrameCount := 1
    chargingDuration := 5000 }

/-- `stFiring` stepped with a valid firing pose. -/
def firingValidRes : DetectorState × GestureOutput :=
  (detectGesture testPrims stFiring (some fireHands) 107100).getD dummyResult

/-- `stFiring` stepped with a single detected hand. -/
def firingOneHandRes : DetectorState × GestureOutput :=
  (detectGesture testPrims stFiring (some [fireL]) 107100).getD dummyResult

/-- A firing state already past both exit caps (duration and frame count)
but mid-invalid-streak. -/
def stFiringOverrun : DetectorState :=
  { initState with
    gestureState := .firing
    stateStartTime := 107000
    firingStartTime := 107000
    allowedFiringDuration := 3750
    firingFrameCount := 120
    firingStabilityCounter := 2 }

/-- `stFiringOverrun` stepped with an invalid two-hand frame. -/
def firingInvalidRes : DetectorState × GestureOutput :=
  (detectGesture testPrims stFiringOverrun (some dullHands) 115000).getD dummyResult

/-- `stFiring` stepped with an absent hands array. -/
def firingNoHandsRes : DetectorState × GestureOutput :=
  (detectGesture testPrims stFiring none 107100).getD dummyResult

/-! ### Helper lemmas -/

/-- `updateHandPositionHistory` only touches the history buffer. -/
lemma updateHist_eq (P : Prims) (st : DetectorState) (hands : List Hand) (now : ℚ) :
    updateHandPositionHistory P st hands now =
      { st with handPositionHistory := historyAfter P st.handPositionHistory hands now } :=
  rfl

/-- The state written by the no-hands reset branch. -/
def noHandsState (st : DetectorState) : DetectorState :=
  if st.gestureState ≠ .idle then
    { st with
      gestureState := .idle
      positioningFrameCount := 0
      firingFrameCount := 0
      firingStabilityCounter := 0
      chargingDuration := 0
      currentHands := none }
  else { st with currentHands := none }

/-- Definitional shape of a frame with a present, possibly empty array. -/
lemma detectGesture_some_def (P : Prims) (st : DetectorState) (hs : List Hand) (now : ℚ) :
    detectGesture P st (some hs) now =
      if hs.length = 0 then
        (getGestureData (noHandsState st) now).map fun out => (noHandsState st, out)
      else
        match switchStep P (updateHandPositionHistory P { st with currentHands := some hs } hs now)
            hs now with
        | some stF => (getGestureData stF now).map fun out => (stF, out)
        | none => none := rfl

/-- Definitional shape of a frame with a missing hands array. -/
lemma detectGesture_none_def (P : Prims) (st : DetectorState) (now : ℚ) :
    detectGesture P st none now =
      (getGestureData (noHandsState st) now).map fun out => (noHandsState st, out) := rfl

/-- Inverting a successful `detectGesture` frame with a nonempty hands list:
the state component is the result of the phase switch. -/
lemma detectGesture_some_switch {P : Prims} {st : DetectorState} {hs : List Hand}
    {now : ℚ} {st' : DetectorState} {out : GestureOutput}
    (hne : hs ≠ [])
    (h : detectGesture P st (some hs) now = some (st', out)) :
    switchStep P (updateHandPositionHistory P { st with currentHands := some hs } hs now) hs now
      = some st' := by
  rw [detectGesture_some_def, if_neg (by simpa [List.length_eq_zero] using hne)] at h
  rcases hswitch :
      switchStep P (updateHandPositionHistory P { st with currentHands := some hs } hs now) hs now
    with _ | stF
  · rw [hswitch] at h
    simp at h
  · rw [hswitch] at h
    obtain ⟨o, -, hpair⟩ := Option.map_eq_some'.mp h
    obtain ⟨h1, -⟩ := (Prod.mk.injEq ..).mp hpair
    exact congrArg some h1

/-- Inverting a successful `detectGesture` frame with no hands array. -/
lemma detectGesture_none_inv {P : Prims} {st : DetectorState}
    {now : ℚ} {st' : DetectorState} {out : GestureOutput}
    (h : detectGesture P st none now = some (st', out)) :
    st' = noHandsState st := by
  rw [detectGesture_none_def] at h
  obtain ⟨o, -, hpair⟩ := Option.map_eq_some'.mp h
  obtain ⟨h1, -⟩ := (Prod.mk.injEq ..).mp hpair
  exact h1.symm

/-- An empty hands array takes the same reset branch as a missing one. -/
lemma detectGesture_nil_inv {P : Prims} {st : DetectorState}
    {now : ℚ} {st' : DetectorState} {out : GestureOutput}
    (h : detectGesture P st (some []) now = some (st', out)) :
    st' = noHandsState st := by
  rw [detectGesture_some_def, if_pos (show ([] : List Hand).length = 0 from rfl)] at h
  obtain ⟨o, -, hpair⟩ := Option.map_eq_some'.mp h
  obtain ⟨h1, -⟩ := (Prod.mk.injEq ..).mp hpair
  exact h1.symm

/-- The no-hands reset state is always `idle`, and when the machine was not
already idle the four counters are zeroed. -/
lemma noHandsState_spec (st : DetectorState) :
    (noHandsState st).gestureState = .idle ∧
    (st.gestureState ≠ .idle →
      (noHandsState st).positioningFrameCount = 0 ∧
      (noHandsState st).firingFrameCount = 0 ∧
      (noHandsState st).firingStabilityCounter = 0 ∧
      (noHandsState st).chargingDuration = 0) ∧
    (noHandsState st).allowedFiringDuration = st.allowedFiringDuration ∧
    (noHandsState st).firingStartTime = st.firingStartTime ∧
    (noHandsState st).stateStartTime = st.stateStartTime := by
  unfold noHandsState
  by_cases hidle : st.gestureState = .idle
  · rw [if_neg (fun hn => hn hidle)]
    exact ⟨hidle, fun hn => absurd hidle hn, rfl, rfl, rfl⟩
  · rw [if_pos hidle]
    exact ⟨rfl, fun _ => ⟨rfl, rfl, rfl, rfl⟩, rfl, rfl, rfl⟩

/-- A one-element hands list fails the firing-pose length guard. -/
lemma isInFiringPosition_single (P : Prims) (h : Hand) :
    isInFiringPosition P [h] = false := rfl

/-- A one-element hands list fails the charging-pose length guard. -/
lemma isInStartingPosition_single (P : Prims) (h : Hand) :
    isInStartingPosition P [h] = false := rfl

/-- An empty hands list fails the firing-pose length guard. -/
lemma isInFiringPosition_nil (P : Prims) :
    isInFiringPosition P [] = false := rfl

/-- The switch dispatches on the current phase: `idle`. -/
lemma switchStep_idle {P : Prims} {st : DetectorState} {hs : List Hand} {now : ℚ}
    (h : st.gestureState = .idle) :
    switchStep P st hs now = some (idleStep P st hs now) := by
  unfold switchStep
  rw [h]

/-- The switch dispatches on the current phase: `positioning`. -/
lemma switchStep_positioning {P : Prims} {st : DetectorState} {hs : List Hand} {now : ℚ}
    (h : st.gestureState = .positioning) :
    switchStep P st hs now = some (positioningStep P st hs now) := by
  unfold switchStep
  rw [h]

/-- The switch dispatches on the current phase: `charging`. -/
lemma switchStep_charging {P : Prims} {st : DetectorState} {hs : List Hand} {now : ℚ}
    (h : st.gestureState = .charging) :
    switchStep P st hs now = chargingStep P st hs now := by
  unfold switchStep
  rw [h]

/-- The switch dispatches on the current phase: `firing`. -/
lemma switchStep_firing {P : Prims} {st : DetectorState} {hs : List Hand} {now : ℚ}
    (h : st.gestureState = .firing) :
    switchStep P st hs now = firingStep P st hs now := by
  unfold switchStep
  rw [h]

/-- From `idle`, a frame only reaches `positioning` or stays `idle`, and the
firing budget is untouched. -/
lemma idleStep_spec (P : Prims) (st : DetectorState) (hs : List Hand) (now : ℚ)
    (h : st.gestureState = .idle) :
    ((idleStep P st hs now).gestureState = .positioning ∨
     (idleStep P st hs now).gestureState = .idle) ∧
    (idleStep P st hs now).allowedFiringDuration = st.allowedFiringDuration := by
  unfold idleStep
  split
  · exact ⟨Or.inl rfl, rfl⟩
  · exact ⟨Or.inr h, rfl⟩

/-- From `positioning`, a frame only reaches `charging`, stays, or drops to
`idle`, and the firing budget is untouched. -/
lemma positioningStep_spec (P : Prims) (st : DetectorState) (hs : List Hand) (now : ℚ)
    (h : st.gestureState = .positioning) :
    ((positioningStep P st hs now).gestureState = .charging ∨
     (positioningStep P st hs now).gestureState = .positioning ∨
     (positioningStep P st hs now).gestureState = .idle) ∧
    (positioningStep P st hs now).allowedFiringDuration = st.allowedFiringDuration := by
  unfold positioningStep
  split
  · split
    · exact ⟨Or.inl rfl, rfl⟩
    · exact ⟨Or.inr (Or.inl h), rfl⟩
  · exact ⟨Or.inr (Or.inr rfl), rfl⟩

/-- Inversion of the `charging` arm: if the frame lands in `firing` then the
firing pose was detected with at least the minimum charge, the firing budget
was set by the lock-in formula, and the beam was taken from
`calculateThrustDirection`; otherwise the result is `charging` or `idle`
with the budget untouched. -/
lemma chargingStep_inv {P : Prims} {st : DetectorState} {hs : List Hand} {now : ℚ}
    {st' : DetectorState}
    (h : chargingStep P st hs now = some st')
    (hst : st.gestureState = .charging) :
    (st'.gestureState = .firing →
      isInFiringPosition P hs = true ∧
      minimumChargingTime ≤ st.chargingDuration ∧
      st'.allowedFiringDuration =
        max 1875 (min (st.chargingDuration / maxChargingTime) 1 * maxFiringDuration) ∧
      calculateThrustDirection P hs = some st'.beamDirection ∧
      st'.firingFrameCount = 1 ∧ st'.firingStabilityCounter = 0 ∧
      st'.firingStartTime = now ∧ st'.chargingDuration = st.chargingDuration) ∧
    (st'.gestureState ≠ .firing →
      st'.allowedFiringDuration = st.allowedFiringDuration) := by
  unfold chargingStep at h
  split at h
  · -- charging pose still valid: stays `charging` or aborts to `idle`
    split at h
    · injection h with h1
      subst h1
      exact ⟨fun hf => absurd hf (by simp), fun _ => rfl⟩
    · injection h with h1
      subst h1
      exact ⟨fun hf => absurd hf (by simp [hst]), fun _ => rfl⟩
  · split at h
    · -- firing pose with enough charge
      rename_i hguard
      rcases hthrust : calculateThrustDirection P hs with _ | d
      · rw [hthrust] at h
        exact absurd h (by simp)
      · rw [hthrust] at h
        injection h with h1
        subst h1
        exact ⟨fun _ => ⟨hguard.1, hguard.2, rfl, rfl, rfl, rfl, rfl, rfl⟩,
               fun hf => absurd rfl hf⟩
    · -- anything else: drop to idle
      injection h with h1
      subst h1
      exact ⟨fun hf => absurd hf (by simp), fun _ => rfl⟩

/-- Inversion of the `firing` arm on a valid-pose frame: streak cleared,
frame count bumped, budget untouched, and the phase exits to `idle` exactly
when the duration cap or the 120-frame cap is hit. -/
lemma firingStep_valid_inv {P : Prims} {st : DetectorState} {hs : List Hand} {now : ℚ}
    {st' : DetectorState}
    (hval : isInFiringPosition P hs = true)
    (h : firingStep P st hs now = some st')
    (hst : st.gestureState = .firing) :
    st'.firingStabilityCounter = 0 ∧
    st'.firingFrameCount = st.firingFrameCount + 1 ∧
    st'.allowedFiringDuration = st.allowedFiringDuration ∧
    (st'.gestureState = .idle ↔
      (st.allowedFiringDuration ≤ now - st.firingStartTime ∨ 120 ≤ st.firingFrameCount + 1)) ∧
    (st'.gestureState = .firing ↔
      ¬(st.allowedFiringDuration ≤ now - st.firingStartTime ∨ 120 ≤ st.firingFrameCount + 1)) := by
  unfold firingStep at h
  rw [if_pos hval] at h
  split at h
  · -- a thrust direction was produced
    split at h
    · rename_i hdur
      injection h with h1
      subst h1
      exact ⟨rfl, rfl, rfl, by simp [hdur], by simp [hdur]⟩
    · rename_i hdur
      split at h
      · rename_i hframes
        injection h with h1
        subst h1
        exact ⟨rfl, rfl, rfl, by simp [hdur, hframes], by simp [hdur, hframes]⟩
      · rename_i hframes
        injection h with h1
        subst h1
        exact ⟨rfl, rfl, rfl, by simp [hst, hdur, hframes], by simp [hst, hdur, hframes]⟩
  · -- unreachable: thrust raised (guarded by the pose check)
    exact absurd h (by simp)

/-- Inversion of the `firing` arm on an invalid-pose frame: streak and frame
count bumped, budget and beam untouched, and the phase exits to `idle`
exactly when the streak reaches the stability threshold — regardless of the
duration and frame caps. -/
lemma firingStep_invalid_inv {P : Prims} {st : DetectorState} {hs : List Hand} {now : ℚ}
    {st' : DetectorState}
    (hval : isInFiringPosition P hs = false)
    (h : firingStep P st hs now = some st')
    (hst : st.gestureState = .firing) :
    st'.firingStabilityCounter = st.firingStabilityCounter + 1 ∧
    st'.firingFrameCount = st.firingFrameCount + 1 ∧
    st'.allowedFiringDuration = st.allowedFiringDuration ∧
    st'.beamDirection = st.beamDirection ∧
    (st'.gestureState = .idle ↔ firingStabilityThreshold ≤ st.firingStabilityCounter + 1) ∧
    (st'.gestureState = .firing ↔ st.firingStabilityCounter + 1 < firingStabilityThreshold) := by
  unfold firingStep at h
  rw [if_neg (by simp [hval])] at h
  split at h
  · rename_i hthr
    injection h with h1
    subst h1
    exact ⟨rfl, rfl, rfl, rfl, by simp [hthr], by simp [hthr, Nat.not_lt.mpr hthr]⟩
  · rename_i hthr
    injection h with h1
    subst h1
    exact ⟨rfl, rfl, rfl, rfl, by simp [hst, hthr], by simp [hst, Nat.lt_of_not_le hthr]⟩

/-- A frame processed in `idle` only reaches `positioning` or stays. -/
lemma idleFrame_states {P : Prims} {st : DetectorState} {hs : List Hand} {now : ℚ}
    {st' : DetectorState} {out : GestureOutput}
    (hne : hs ≠ [])
    (h : detectGesture P st (some hs) now = some (st', out))
    (hst : st.gestureState = .idle) :
    st'.gestureState = .positioning ∨ st'.gestureState = .idle := by
  have hsw := detectGesture_some_switch hne h
  unfold switchStep at hsw
  rw [show (updateHandPositionHistory P { st with currentHands := some hs } hs now).gestureState
        = GesturePhase.idle from hst] at hsw
  injection hsw with h1
  subst h1
  unfold idleStep
  split
  · exact Or.inl rfl
  · exact Or.inr hst

/-- A frame processed in `positioning` only reaches `charging`, stays, or
drops to `idle`. -/
lemma positioningFrame_states {P : Prims} {st : DetectorState} {hs : List Hand} {now : ℚ}
    {st' : DetectorState} {out : GestureOutput}
    (hne : hs ≠ [])
    (h : detectGesture P st (some hs) now = some (st', out))
    (hst : st.gestureState = .positioning) :
    st'.gestureState = .charging ∨ st'.gestureState = .positioning ∨
      st'.gestureState = .idle := by
  have hsw := detectGesture_some_switch hne h
  unfold switchStep at hsw
  rw [show (updateHandPositionHistory P { st with currentHands := some hs } hs now).gestureState
        = GesturePhase.positioning from hst] at hsw
  injection hsw with h1
  subst h1
  unfold positioningStep
  split
  · split
    · exact Or.inl rfl
    · exact Or.inr (Or.inl hst)
  · exact Or.inr (Or.inr rfl)

/-- Inversion of a frame processed in `charging` (conclusions phrased on the
pre-frame state; the history update does not touch the relevant fields). -/
lemma chargingFrame_inv {P : Prims} {st : DetectorState} {hs : List Hand} {now : ℚ}
    {st' : DetectorState} {out : GestureOutput}
    (hne : hs ≠ [])
    (h : detectGesture P st (some hs) now = some (st', out))
    (hst : st.gestureState = .charging) :
    (st'.gestureState = .firing →
      isInFiringPosition P hs = true ∧
      minimumChargingTime ≤ st.chargingDuration ∧
      st'.allowedFiringDuration =
        max 1875 (min (st.chargingDuration / maxChargingTime) 1 * maxFiringDuration) ∧
      calculateThrustDirection P hs = some st'.beamDirection ∧
      st'.firingFrameCount = 1 ∧ st'.firingStabilityCounter = 0 ∧
      st'.firingStartTime = now ∧ st'.chargingDuration = st.chargingDuration) ∧
    (st'.gestureState ≠ .firing →
      st'.allowedFiringDuration = st.allowedFiringDuration) := by
  have hsw := detectGesture_some_switch hne h
  unfold switchStep at hsw
  rw [show (updateHandPositionHistory P { st with currentHands := some hs } hs now).gestureState
        = GesturePhase.charging from hst] at hsw
  have hres := chargingStep_inv hsw hst
  exact hres

/-- Inversion of a valid-pose frame processed in `firing`. -/
lemma firingFrame_valid_inv {P : Prims} {st : DetectorState} {hs : List Hand} {now : ℚ}
    {st' : DetectorState} {out : GestureOutput}
    (hne : hs ≠ [])
    (h : detectGesture P st (some hs) now = some (st', out))
    (hst : st.gestureState = .firing)
    (hval : isInFiringPosition P hs = true) :
    st'.firingStabilityCounter = 0 ∧
    st'.firingFrameCount = st.firingFrameCount + 1 ∧
    st'.allowedFiringDuration = st.allowedFiringDuration ∧
    (st'.gestureState = .idle ↔
      (st.allowedFiringDuration ≤ now - st.firingStartTime ∨ 120 ≤ st.firingFrameCount + 1)) ∧
    (st'.gestureState = .firing ↔
      ¬(st.allowedFiringDuration ≤ now - st.firingStartTime ∨ 120 ≤ st.firingFrameCount + 1)) := by
  have hsw := detectGesture_some_switch hne h
  unfold switchStep at hsw
  rw [show (updateHandPositionHistory P { st with currentHands := some hs } hs now).gestureState
        = GesturePhase.firing from hst] at hsw
  have hres := firingStep_valid_inv hval hsw hst
  exact hres

/-- Inversion of an invalid-pose frame processed in `firing`. -/
lemma firingFrame_invalid_inv {P : Prims} {st : DetectorState} {hs : List Hand} {now : ℚ}
    {st' : DetectorState} {out : GestureOutput}
    (hne : hs ≠ [])
    (h : detectGesture P st (some hs) now = some (st', out))
    (hst : st.gestureState = .firing)
    (hval : isInFiringPosition P hs = false) :
    st'.firingStabilityCounter = st.firingStabilityCounter + 1 ∧
    st'.firingFrameCount = st.firingFrameCount + 1 ∧
    st'.allowedFiringDuration = st.allowedFiringDuration ∧
    st'.beamDirection = st.beamDirection ∧
    (st'.gestureState = .idle ↔ firingStabilityThreshold ≤ st.firingStabilityCounter + 1) ∧
    (st'.gestureState = .firing ↔ st.firingStabilityCounter + 1 < firingStabilityThreshold) := by
  have hsw := detectGesture_some_switch hne h
  unfold switchStep at hsw
  rw [show (updateHandPositionHistory P { st with currentHands := some hs } hs now).gestureState
        = GesturePhase.firing from hst] at hsw
  have hres := firingStep_invalid_inv hval hsw hst
  exact hres

/-! ### Claim theorems -/

/-- C1 (amended): at every charging→firing transition the initial beam
direction is the one computed by `calculateThrustDirection` (the continuous
origin-to-midpoint estimator), not by the layered lock-in estimator
`calculateBeamDirectionFromWrists`. -/
theorem C1_transition_beam_is_thrust_direction :
    ∀ (P : Prims) (st : DetectorState) (hs : List Hand) (now : ℚ)
      (st' : DetectorState) (out : GestureOutput),
      detectGesture P st (some hs) now = some (st', out) →
      st.gestureState = .charging → st'.gestureState = .firing →
      calculateThrustDirection P hs = some st'.beamDirection := by
  intro P st hs now st' out h hc hf
  rcases hs with _ | ⟨hd, tl⟩
  · rw [detectGesture_nil_inv h, (noHandsState_spec st).1] at hf
    simp at hf
  · exact ((chargingFrame_inv (by simp) h hc).1 hf).2.2.2.1

/-- C1 witness: the concrete 5-second-charge transition frame. -/
theorem C1_transition_beam_is_thrust_direction_witness :
    calculateThrustDirection testPrims fireHands = some chargeFireRes.1.beamDirection :=
  C1_transition_beam_is_thrust_direction testPrims stCharging fireHands 107000
    chargeFireRes.1 chargeFireRes.2 (by with_unfolding_all rfl) (by rfl)
    (by with_unfolding_all rfl)

/-- C1 counterexample: on the concrete transition frame the machine stores
the thrust-direction beam (vector (0,−1), method origin-to-midpoint), which
differs from what the layered lock-in estimator
`calculateBeamDirectionFromWrists` would have produced (vector (0,1),
method perpendicular_wrist, origin at the energy-sphere center). -/
theorem C1_lockin_counterexample :
    stCharging.gestureState = .charging ∧
    chargeFireRes.1.gestureState = .firing ∧
    chargeFireRes.1.beamDirection.vector = ⟨0, -1⟩ ∧
    chargeFireRes.1.beamDirection.method = "origin-to-midpoint" ∧
    (calculateBeamDirectionFromWrists testPrims (findKp fireL "wrist") (findKp fireR "wrist")
      (some fireL) (some fireR)).vector = ⟨0, 1⟩ ∧
    (calculateBeamDirectionFromWrists testPrims (findKp fireL "wrist") (findKp fireR "wrist")
      (some fireL) (some fireR)).method = "perpendicular_wrist" ∧
    chargeFireRes.1.beamDirection.vector ≠
      (calculateBeamDirectionFromWrists testPrims (findKp fireL "wrist") (findKp fireR "wrist")
        (some fireL) (some fireR)).vector := by
  refine ⟨rfl, ?_, ?_, ?_, ?_, ?_, ?_⟩ <;> with_unfolding_all decide

/-- C3 (amended): `reset()` restores the phase, both start times, the
charging duration, the firing budget and all three counters to their
construction-time defaults and clears the hands reference, but it leaves
`beamDirection`, `handPositionHistory` and `chargingPosition` at their
current values instead of restoring them. -/
theorem C3_reset_amended :
    ∀ st : DetectorState,
      reset st =
        { initState with
          beamDirection := st.beamDirection
          handPositionHistory := st.handPositionHistory
          chargingPosition := st.chargingPosition } := by
  intro st
  rfl

/-- C3 counterexample: after a real charging→firing transition the stored
beam is (0,−1); `reset` keeps it, so the detector does not equal the
initial `DetectorState`, whose beam is (1,0). -/
theorem C3_reset_counterexample :
    (reset chargeFireRes.1).gestureState = .idle ∧
    (reset chargeFireRes.1).beamDirection.vector = ⟨0, -1⟩ ∧
    initState.beamDirection.vector = ⟨1, 0⟩ ∧
    reset chargeFireRes.1 ≠ initState := by
  refine ⟨rfl, ?_, rfl, ?_⟩ <;> with_unfolding_all decide

/-- C4 (amended): at every charging→firing transition
`allowedFiringDuration` is set to
`max(1875, min(chargingDuration/20000, 1) * 15000)` — e.g. 3750 for
chargingDuration 5000 (not 1875), 7500 for 10000, 15000 for 20000 — and is
not modified again on any frame processed while in firing. -/
theorem C4_duration_formula_amended :
    ∀ (P : Prims) (st : DetectorState) (hands : Option (List Hand)) (now : ℚ)
      (st' : DetectorState) (out : GestureOutput),
      detectGesture P st hands now = some (st', out) →
      (st.gestureState = .charging → st'.gestureState = .firing →
        st'.allowedFiringDuration =
          max 1875 (min (st.chargingDuration / maxChargingTime) 1 * maxFiringDuration)) ∧
      (st.gestureState = .firing → st'.allowedFiringDuration = st.allowedFiringDuration) := by
  intro P st hands now st' out h
  constructor
  · intro hc hf
    rcases hands with _ | hs
    · rw [detectGesture_none_inv h, (noHandsState_spec st).1] at hf
      simp at hf
    rcases hs with _ | ⟨hd, tl⟩
    · rw [detectGesture_nil_inv h, (noHandsState_spec st).1] at hf
      simp at hf
    · exact ((chargingFrame_inv (by simp) h hc).1 hf).2.2.1
  · intro hfir
    rcases hands with _ | hs
    · rw [detectGesture_none_inv h]
      exact (noHandsState_spec st).2.2.1
    rcases hs with _ | ⟨hd, tl⟩
    · rw [detectGesture_nil_inv h]
      exact (noHandsState_spec st).2.2.1
    · rcases hb : isInFiringPosition P (hd :: tl) with _ | _
      · exact (firingFrame_invalid_inv (by simp) h hfir hb).2.2.1
      · exact (firingFrame_valid_inv (by simp) h hfir hb).2.2.1

/-- C4 witness: the formula evaluated on the concrete transition frame, and
budget preservation across a concrete firing frame. -/
theorem C4_duration_formula_amended_witness :
    chargeFireRes.1.allowedFiringDuration =
      max 1875 (min (stCharging.chargingDuration / maxChargingTime) 1 * maxFiringDuration) ∧
    firingValidRes.1.allowedFiringDuration = stFiring.allowedFiringDuration :=
  ⟨(C4_duration_formula_amended testPrims stCharging (some fireHands) 107000
      chargeFireRes.1 chargeFireRes.2 (by with_unfolding_all rfl)).1 (by rfl)
      (by with_unfolding_all rfl),
   (C4_duration_formula_amended testPrims stFiring (some fireHands) 107100
      firingValidRes.1 firingValidRes.2 (by with_unfolding_all rfl)).2 (by rfl)⟩

/-- C4 counterexample: the claim's example "1875 for chargingDuration 5000"
contradicts the formula and the code: on the concrete transition frame with
`chargingDuration = 5000` the machine sets `allowedFiringDuration = 3750`. -/
theorem C4_example_counterexample :
    stCharging.chargingDuration = 5000 ∧
    chargeFireRes.1.gestureState = .firing ∧
    chargeFireRes.1.allowedFiringDuration = 3750 ∧
    (3750 : ℚ) ≠ 1875 := by
  refine ⟨rfl, by with_unfolding_all rfl, by with_unfolding_all rfl, by norm_num⟩

/-- C6 (confirmed): a frame can move the machine into `firing` only when the
stored `chargingDuration` is at least `minimumChargingTime` (5000 ms) at the
moment the firing pose is detected. -/
theorem C6_minimum_charge_gating :
    ∀ (P : Prims) (st : DetectorState) (hands : Option (List Hand)) (now : ℚ)
      (st' : DetectorState) (out : GestureOutput),
      detectGesture P st hands now = some (st', out) →
      st.gestureState ≠ .firing → st'.gestureState = .firing →
      minimumChargingTime ≤ st.chargingDuration := by
  intro P st hands now st' out h hnf hf
  rcases hands with _ | hs
  · rw [detectGesture_none_inv h, (noHandsState_spec st).1] at hf
    simp at hf
  rcases hs with _ | ⟨hd, tl⟩
  · rw [detectGesture_nil_inv h, (noHandsState_spec st).1] at hf
    simp at hf
  · rcases hphase : st.gestureState with _ | _ | _ | _
    · rcases idleFrame_states (by simp) h hphase with h2 | h2 <;>
        (rw [h2] at hf; simp at hf)
    · rcases positioningFrame_states (by simp) h hphase with h2 | h2 | h2 <;>
        (rw [h2] at hf; simp at hf)
    · exact ((chargingFrame_inv (by simp) h hphase).1 hf).2.1
    · exact absurd hphase hnf

/-- C6 witness: the concrete transition frame charged for exactly the
minimum. -/
theorem C6_minimum_charge_gating_witness :
    minimumChargingTime ≤ stCharging.chargingDuration :=
  C6_minimum_charge_gating testPrims stCharging (some fireHands) 107000
    chargeFireRes.1 chargeFireRes.2 (by with_unfolding_all rfl) (by decide)
    (by with_unfolding_all rfl)

/-- C2 (amended): a frame with the hands array absent or empty forces
`idle`, and when the machine was not already idle it zeroes
`positioningFrameCount`, `firingFrameCount`, `firingStabilityCounter` and
`chargingDuration` (but not `allowedFiringDuration` or the start times, and
nothing when already idle).  A frame with exactly one hand is NOT such a
reset: it flows through the normal transition logic with both pose
predicates false, so in `firing` it merely extends the invalid streak and
the machine stays in `firing` below the stability threshold. -/
theorem C2_no_hands_reset_amended :
    (∀ (P : Prims) (st : DetectorState) (hands : Option (List Hand)) (now : ℚ)
       (st' : DetectorState) (out : GestureOutput),
       detectGesture P st hands now = some (st', out) →
       (hands = none ∨ hands = some []) →
       st'.gestureState = .idle ∧
       (st.gestureState ≠ .idle →
         st'.positioningFrameCount = 0 ∧ st'.firingFrameCount = 0 ∧
         st'.firingStabilityCounter = 0 ∧ st'.chargingDuration = 0) ∧
       st'.allowedFiringDuration = st.allowedFiringDuration ∧
       st'.firingStartTime = st.firingStartTime ∧
       st'.stateStartTime = st.stateStartTime) ∧
    (∀ (P : Prims) (st : DetectorState) (hand : Hand) (now : ℚ)
       (st' : DetectorState) (out : GestureOutput),
       detectGesture P st (some [hand]) now = some (st', out) →
       st.gestureState = .firing →
       st.firingStabilityCounter + 1 < firingStabilityThreshold →
       st'.gestureState = .firing ∧
       st'.firingStabilityCounter = st.firingStabilityCounter + 1) := by
  constructor
  · intro P st hands now st' out h hcase
    rcases hcase with rfl | rfl
    · rw [detectGesture_none_inv h]
      exact noHandsState_spec st
    · rw [detectGesture_nil_inv h]
      exact noHandsState_spec st
  · intro P st hand now st' out h hst hlt
    have hinv := firingFrame_invalid_inv (by simp) h hst (isInFiringPosition_single P hand)
    exact ⟨hinv.2.2.2.2.2.mpr hlt, hinv.1⟩

/-- C2 witness: a missing-array frame from `firing` resets to idle with
zeroed counters; a one-hand frame from `firing` stays firing. -/
theorem C2_no_hands_reset_amended_witness :
    (firingNoHandsRes.1.gestureState = .idle ∧
      (stFiring.gestureState ≠ .idle →
        firingNoHandsRes.1.positioningFrameCount = 0 ∧
        firingNoHandsRes.1.firingFrameCount = 0 ∧
        firingNoHandsRes.1.firingStabilityCounter = 0 ∧
        firingNoHandsRes.1.chargingDuration = 0) ∧
      firingNoHandsRes.1.allowedFiringDuration = stFiring.allowedFiringDuration ∧
      firingNoHandsRes.1.firingStartTime = stFiring.firingStartTime ∧
      firingNoHandsRes.1.stateStartTime = stFiring.stateStartTime) ∧
    (firingOneHandRes.1.gestureState = .firing ∧
      firingOneHandRes.1.firingStabilityCounter = stFiring.firingStabilityCounter + 1) :=
  ⟨C2_no_hands_reset_amended.1 testPrims stFiring none 107100
      firingNoHandsRes.1 firingNoHandsRes.2 (by with_unfolding_all rfl) (Or.inl rfl),
   C2_no_hands_reset_amended.2 testPrims stFiring fireL 107100
      firingOneHandRes.1 firingOneHandRes.2 (by with_unfolding_all rfl) (by rfl) (by decide)⟩

/-- C2 counterexample: a frame whose hands array has length 1 (≠ 2) does
not leave the machine idle — from `firing` with a clean streak it stays in
`firing` with a bumped frame count and streak. -/
theorem C2_one_hand_counterexample :
    stFiring.gestureState = .firing ∧
    firingOneHandRes.1.gestureState = .firing ∧
    firingOneHandRes.1.gestureState ≠ .idle ∧
    firingOneHandRes.1.firingFrameCount = 2 ∧
    firingOneHandRes.1.firingStabilityCounter = 1 := by
  refine ⟨rfl, ?_, ?_, ?_, ?_⟩ <;> with_unfolding_all decide

/-- C5 (confirmed): while in `firing` with two hands present, a valid pose
clears the consecutive-invalid counter; an invalid pose increments it by 1
and ends the episode exactly when the new streak reaches the threshold 5 —
so firing survives streaks of up to 4 and the 5th consecutive invalid frame
goes to `idle`. -/
theorem C5_firing_hysteresis :
    ∀ (P : Prims) (st : DetectorState) (hs : List Hand) (now : ℚ)
      (st' : DetectorState) (out : GestureOutput),
      detectGesture P st (some hs) now = some (st', out) →
      st.gestureState = .firing → hs.length = 2 →
      (isInFiringPosition P hs = true → st'.firingStabilityCounter = 0) ∧
      (isInFiringPosition P hs = false →
        st'.firingStabilityCounter = st.firingStabilityCounter + 1 ∧
        st'.firingFrameCount = st.firingFrameCount + 1 ∧
        (st'.gestureState = .idle ↔ firingStabilityThreshold ≤ st.firingStabilityCounter + 1) ∧
        (st'.gestureState = .firing ↔
          st.firingStabilityCounter + 1 < firingStabilityThreshold)) := by
  intro P st hs now st' out h hst hlen
  have hne : hs ≠ [] := by
    intro hnil
    rw [hnil] at hlen
    simp at hlen
  constructor
  · intro hval
    exact (firingFrame_valid_inv hne h hst hval).1
  · intro hval
    have hinv := firingFrame_invalid_inv hne h hst hval
    exact ⟨hinv.1, hinv.2.1, hinv.2.2.2.2.1, hinv.2.2.2.2.2⟩

/-- C5 witness: a valid frame clears the streak; an invalid two-hand frame
on a streak of 2 bumps it to 3 and keeps firing. -/
theorem C5_firing_hysteresis_witness :
    firingValidRes.1.firingStabilityCounter = 0 ∧
    (firingInvalidRes.1.firingStabilityCounter = stFiringOverrun.firingStabilityCounter + 1 ∧
      (firingInvalidRes.1.gestureState = .firing ↔
        stFiringOverrun.firingStabilityCounter + 1 < firingStabilityThreshold)) :=
  ⟨(C5_firing_hysteresis testPrims stFiring fireHands 107100
      firingValidRes.1 firingValidRes.2 (by with_unfolding_all rfl) (by rfl) (by rfl)).1
      (by with_unfolding_all rfl),
   (fun hinv => ⟨hinv.1, hinv.2.2.2⟩)
     ((C5_firing_hysteresis testPrims stFiringOverrun dullHands 115000
        firingInvalidRes.1 firingInvalidRes.2 (by with_unfolding_all rfl) (by rfl) (by rfl)).2
        (by with_unfolding_all rfl))⟩

/-- C7 (confirmed): while in `firing` with a valid pose, the frame count is
bumped and the episode ends exactly when the elapsed duration reaches
`allowedFiringDuration` or the bumped frame count reaches 120, whichever
happens first. -/
theorem C7_hard_exit :
    ∀ (P : Prims) (st : DetectorState) (hs : List Hand) (now : ℚ)
      (st' : DetectorState) (out : GestureOutput),
      detectGesture P st (some hs) now = some (st', out) →
      st.gestureState = .firing → isInFiringPosition P hs = true →
      st'.firingFrameCount = st.firingFrameCount + 1 ∧
      (st'.gestureState = .idle ↔
        (st.allowedFiringDuration ≤ now - st.firingStartTime ∨
         120 ≤ st.firingFrameCount + 1)) ∧
      (st'.gestureState = .firing ↔
        ¬(st.allowedFiringDuration ≤ now - st.firingStartTime ∨
          120 ≤ st.firingFrameCount + 1)) := by
  intro P st hs now st' out h hst hval
  have hne : hs ≠ [] := by
    intro hnil
    rw [hnil, isInFiringPosition_nil] at hval
    simp at hval
  have hinv := firingFrame_valid_inv hne h hst hval
  exact ⟨hinv.2.1, hinv.2.2.2.1, hinv.2.2.2.2⟩

/-- C7 witness: the concrete valid firing frame at 100 ms of a 3750 ms
budget, frame 2 of 120 — the episode continues. -/
theorem C7_hard_exit_witness :
    firingValidRes.1.firingFrameCount = stFiring.firingFrameCount + 1 ∧
    (firingValidRes.1.gestureState = .idle ↔
      (stFiring.allowedFiringDuration ≤ (107100 : ℚ) - stFiring.firingStartTime ∨
       120 ≤ stFiring.firingFrameCount + 1)) ∧
    (firingValidRes.1.gestureState = .firing ↔
      ¬(stFiring.allowedFiringDuration ≤ (107100 : ℚ) - stFiring.firingStartTime ∨
        120 ≤ stFiring.firingFrameCount + 1)) :=
  C7_hard_exit testPrims stFiring fireHands 107100
    firingValidRes.1 firingValidRes.2 (by with_unfolding_all rfl) (by rfl)
    (by with_unfolding_all rfl)

/-- C10 (confirmed): the duration and frame caps are checked only on
valid-pose frames: an invalid-pose two-hand frame keeps the machine in
`firing` whenever the new streak is below the threshold, even when the
elapsed duration is already past `allowedFiringDuration` and the frame
count is already past 120. -/
theorem C10_caps_skipped_when_invalid :
    ∀ (P : Prims) (st : DetectorState) (hs : List Hand) (now : ℚ)
      (st' : DetectorState) (out : GestureOutput),
      detectGesture P st (some hs) now = some (st', out) →
      st.gestureState = .firing → hs.length = 2 →
      isInFiringPosition P hs = false →
      st.allowedFiringDuration ≤ now - st.firingStartTime →
      120 ≤ st.firingFrameCount →
      st.firingStabilityCounter + 1 < firingStabilityThreshold →
      st'.gestureState = .firing := by
  intro P st hs now st' out h hst hlen hval _ _ hlt
  have hne : hs ≠ [] := by
    intro hnil
    rw [hnil] at hlen
    simp at hlen
  exact (firingFrame_invalid_inv hne h hst hval).2.2.2.2.2.mpr hlt

/-- C10 witness: the concrete overrun frame — 8000 ms elapsed of a 3750 ms
budget, frame count 120 — stays in `firing` on an invalid pose. -/
theorem C10_caps_skipped_when_invalid_witness :
    firingInvalidRes.1.gestureState = .firing :=
  C10_caps_skipped_when_invalid testPrims stFiringOverrun dullHands 115000
    firingInvalidRes.1 firingInvalidRes.2 (by with_unfolding_all rfl) (by rfl) (by rfl)
    (by with_unfolding_all rfl) (by with_unfolding_all decide) (by decide) (by decide)

/-- When both wrists are found, the energy-sphere center exists (either the
blended fingertip center or the wrist-midpoint fallback). -/
lemma calculateEnergySphereCenter_isSome {lh rh : Hand} {lw rw : Keypoint}
    (hlw : findKp lh "wrist" = some lw) (hrw : findKp rh "wrist" = some rw) :
    ∃ c, calculateEnergySphereCenter lh rh = some c := by
  unfold calculateEnergySphereCenter
  rw [hlw, hrw]
  rcases findKp lh "index_finger_tip" with _ | li <;>
    rcases findKp rh "index_finger_tip" with _ | ri <;>
    rcases findKp lh "middle_finger_tip" with _ | lm <;>
    rcases findKp rh "middle_finger_tip" with _ | rm <;>
    exact ⟨_, rfl⟩

/-- C8 (confirmed): given two identified hands each exposing wrist, thumb,
index and middle tips, `isInFiringPosition` evaluates exactly the four
criteria of `firingPoseScore` (fingers curved, hands aligned, wrists
rotated inward, energy-sphere formation) and returns true iff at least 2 of
them are satisfied. -/
theorem C8_firing_score_threshold :
    ∀ (P : Prims) (h1 h2 lh rh : Hand) (lw rw lt rt li ri lm rm : Keypoint),
      identifyHands [h1, h2] = some (lh, rh) →
      findKp lh "wrist" = some lw → findKp rh "wrist" = some rw →
      findKp lh "thumb_tip" = some lt → findKp rh "thumb_tip" = some rt →
      findKp lh "index_finger_tip" = some li → findKp rh "index_finger_tip" = some ri →
      findKp lh "middle_finger_tip" = some lm → findKp rh "middle_finger_tip" = some rm →
      isInFiringPosition P [h1, h2] = decide (2 ≤ firingPoseScore P lh rh lw rw) := by
  intro P h1 h2 lh rh lw rw lt rt li ri lm rm hid hlw hrw hlt hrt hli hri hlm hrm
  unfold isInFiringPosition
  rw [if_neg (by simp)]
  rw [hid]
  simp only [hlw, hrw, hlt, hrt, hli, hri, hlm, hrm]

/-- C8 witness: the concrete firing frame scores exactly 2 of 4 and is
accepted. -/
theorem C8_firing_score_threshold_witness :
    isInFiringPosition testPrims fireHands =
      decide (2 ≤ firingPoseScore testPrims fireL fireR (kp "wrist" 200 300) (kp "wrist" 340 300)) :=
  C8_firing_score_threshold testPrims fireL fireR fireL fireR
    (kp "wrist" 200 300) (kp "wrist" 340 300) (kp "thumb_tip" 200 260) (kp "thumb_tip" 340 260)
    (kp "index_finger_tip" 160 300) (kp "index_finger_tip" 380 300)
    (kp "middle_finger_tip" 260 300) (kp "middle_finger_tip" 280 300)
    (by with_unfolding_all rfl) (by with_unfolding_all rfl) (by with_unfolding_all rfl)
    (by with_unfolding_all rfl) (by with_unfolding_all rfl) (by with_unfolding_all rfl)
    (by with_unfolding_all rfl) (by with_unfolding_all rfl) (by with_unfolding_all rfl)

/-- C9 (confirmed): given two identified hands each exposing wrist, thumb
and index tips, `isInStartingPosition` returns true iff the 6-criterion
charging score computed by `analyzeChargingPose` is at least 2 (the score
being exactly the count of satisfied criteria). -/
theorem C9_charging_score_threshold :
    ∀ (P : Prims) (h1 h2 lh rh : Hand) (lw rw lt rt li ri : Keypoint),
      identifyHands [h1, h2] = some (lh, rh) →
      findKp lh "wrist" = some lw → findKp rh "wrist" = some rw →
      findKp lh "thumb_tip" = some lt → findKp rh "thumb_tip" = some rt →
      findKp lh "index_finger_tip" = some li → findKp rh "index_finger_tip" = some ri →
      ∃ a : ChargingAnalysis,
        analyzeChargingPose P lh rh = some a ∧
        isInStartingPosition P [h1, h2] = decide (2 ≤ a.score) ∧
        a.score =
          (if a.distanceValid then 1 else 0) + (if a.vFormationValid then 1 else 0) +
          (if a.palmsValid then 1 else 0) + (if a.wristRotationValid then 1 else 0) +
          (if a.fingersSpreadValid then 1 else 0) + (if a.energyFunnelValid then 1 else 0) := by
  intro P h1 h2 lh rh lw rw lt rt li ri hid hlw hrw hlt hrt hli hri
  obtain ⟨c, hc⟩ := calculateEnergySphereCenter_isSome hlw hrw
  unfold analyzeChargingPose
  rw [hlw, hrw, hlt, hrt, hli, hri, hc]
  refine ⟨_, rfl, ?_, ?_⟩
  · unfold isInStartingPosition
    rw [if_neg (by simp)]
    rw [hid]
    simp only [hlw, hrw, hlt, hrt, hli, hri]
    unfold analyzeChargingPose
    simp only [hlw, hrw, hlt, hrt, hli, hri, hc]
  · simp only [decide_eq_true_eq]

/-- C9 witness: the concrete firing frame scores 1 of 6 on the charging
criteria and is rejected. -/
theorem C9_charging_score_threshold_witness :
    ∃ a : ChargingAnalysis,
      analyzeChargingPose testPrims fireL fireR = some a ∧
      isInStartingPosition testPrims fireHands = decide (2 ≤ a.score) ∧
      a.score =
        (if a.distanceValid then 1 else 0) + (if a.vFormationValid then 1 else 0) +
        (if a.palmsValid then 1 else 0) + (if a.wristRotationValid then 1 else 0) +
        (if a.fingersSpreadValid then 1 else 0) + (if a.energyFunnelValid then 1 else 0) :=
  C9_charging_score_threshold testPrims fireL fireR fireL fireR
    (kp "wrist" 200 300) (kp "wrist" 340 300) (kp "thumb_tip" 200 260) (kp "thumb_tip" 340 260)
    (kp "index_finger_tip" 160 300) (kp "index_finger_tip" 380 300)
    (by with_unfolding_all rfl) (by with_unfolding_all rfl) (by with_unfolding_all rfl)
    (by with_unfolding_all rfl) (by with_unfolding_all rfl) (by with_unfolding_all rfl)
    (by with_unfolding_all rfl)

end Kamehameha
